import Mathlib

/-
  Verification development for the billy payment event reconciliation and
  idempotent dispatch engine.

  The repository ships the unit tests of the engine
  (billy/tests/unit/test_models/test_processors.py); the engine itself
  (billy.models.processors.balanced_payments, billy.models.transaction,
  billy.models.invoice) is not part of the source tree.  The definitions
  below are therefore modelled from the specification, with every point of
  behaviour that the unit tests pin down made to agree with those tests.
-/

namespace Billy

/-- Modelled from the spec: the canonical status enum
{PENDING, PROCESSING, SUCCEEDED, FAILED} that all gateway-specific strings
are normalized into (billy.models.transaction statuses, absent from src). -/
inductive Status where
  | PENDING
  | PROCESSING
  | SUCCEEDED
  | FAILED
deriving DecidableEq, Repr

/-- Modelled from the spec: the pure status mapping table of
BalancedProcessor (absent from src): pending maps to PENDING, succeeded and
paid map to SUCCEEDED, failed and reversed map to FAILED, and any other
string maps to PENDING as the safe default. -/
def status_mapping (s : String) : Status :=
  if s = "pending" then .PENDING
  else if s = "succeeded" then .SUCCEEDED
  else if s = "paid" then .SUCCEEDED
  else if s = "failed" then .FAILED
  else if s = "reversed" then .FAILED
  else .PENDING

/-- Modelled from the spec: a TransactionEvent record — gateway-assigned
event id (processor_id), the canonical status it asserts, and the gateway
timestamp occurred_at (modelled as a Nat). -/
structure TransactionEvent where
  processor_id : String
  status : Status
  occurred_at : Nat
deriving DecidableEq, Repr

/-- Modelled from the spec: a Transaction as seen by the reconciliation
engine — unique guid, owning company and invoice, the derived canonical
status (none before any event arrived) and the stored events. -/
structure RTransaction where
  guid : String
  company_guid : String
  invoice_guid : String
  status : Option Status
  events : List TransactionEvent
deriving DecidableEq, Repr

/-- Modelled from the spec: the event store keeps the events of a transaction
ordered by occurred_at descending (newest first), the order in which
`transaction.events` is iterated by the tests.  A new event is inserted at
its sorted position; on an occurred_at tie the already-stored event keeps
the earlier position. -/
def insertEventDesc (ev : TransactionEvent) : List TransactionEvent → List TransactionEvent
  | [] => [ev]
  | e :: rest =>
      if e.occurred_at < ev.occurred_at then ev :: e :: rest
      else e :: insertEventDesc ev rest

/-- Modelled from the spec: scan all events of a transaction and select the
one with the maximum occurred_at (ties resolved in favour of the
earlier-listed event, the open tie-break question of the spec). -/
def latestEvent : List TransactionEvent → Option TransactionEvent
  | [] => none
  | e :: rest =>
      match latestEvent rest with
      | none => some e
      | some b => if b.occurred_at > e.occurred_at then some b else some e

/-- Modelled from the spec: the error kinds surfaced by the engine.
DuplicateEventError comes from billy.models.transaction; the others from
billy.models.processors.balanced_payments; AssertionError models the
api-key assertion; ValueError the generic validation error of
prepare_customer (all absent from src). -/
inductive BError where
  | DuplicateEventError
  | InvalidCallbackPayload
  | InvalidURIFormat
  | InvalidFundingInstrument
  | AssertionError
  | ValueError
deriving DecidableEq, Repr

/-- Modelled from the spec: TransactionModel.add_event (absent from src) —
fail with DuplicateEventError when an event with the same gateway event id
is already stored, otherwise insert the new event and recompute the
status of the transaction as the mapped status of the stored event with the
maximum occurred_at. -/
def add_event (tx : RTransaction) (ev : TransactionEvent) : Except BError RTransaction :=
  if tx.events.any (fun e => e.processor_id == ev.processor_id) then
    .error .DuplicateEventError
  else
    let evs := insertEventDesc ev tx.events
    .ok { tx with events := evs, status := (latestEvent evs).map TransactionEvent.status }

/-- Modelled from the spec: fold add_event over a list of events, stopping
at the first error. -/
def applyEvents (tx : RTransaction) : List TransactionEvent → Except BError RTransaction
  | [] => .ok tx
  | e :: rest =>
      match add_event tx e with
      | .error err => .error err
      | .ok tx2 => applyEvents tx2 rest

/-- Modelled from the spec: the invoice status derivation rule over the
statuses of the transactions of the invoice: FAILED if any transaction failed,
SUCCEEDED only when every transaction succeeded, otherwise PROCESSING — the
in-progress case is pinned to PROCESSING by
test_callback_only_latest_event_affects_status, which expects invoice
status PROCESSING while its only transaction is PENDING. -/
def invoice_status_of (statuses : List Status) : Status :=
  if statuses.any (fun s => s == .FAILED) then .FAILED
  else if statuses.all (fun s => s == .SUCCEEDED) then .SUCCEEDED
  else .PROCESSING

/-- Modelled from the spec: the persistent store of transactions (all
companies share one store; guids are globally unique). -/
structure World where
  transactions : List RTransaction
deriving DecidableEq, Repr

/-- Look a transaction up by guid. -/
def World.findTx (w : World) (guid : String) : Option RTransaction :=
  w.transactions.find? (fun t => t.guid == guid)

/-- Modelled from the spec: the status of an invoice is derived, never set
directly — the §3 derivation rule applied to the statuses of the
transactions (none when the invoice has no transaction with a status yet). -/
def World.invoiceStatus (w : World) (inv : String) : Option Status :=
  let sts := (w.transactions.filter (fun t => t.invoice_guid == inv)).filterMap RTransaction.status
  if sts.isEmpty then none else some (invoice_status_of sts)

/-- Modelled from the spec: the deferred reconciliation action produced by a
validated callback, closing over the tagged transaction id, the mapped
status, the gateway event id and occurred_at. -/
structure DeferredAction where
  transaction_guid : String
  status : Status
  processor_id : String
  occurred_at : Nat
deriving DecidableEq, Repr

/-- Modelled from the spec: applying a deferred action (update_db) inside a
storage transaction — resolve the tagged transaction id in the calling
scope of this company, failing with InvalidCallbackPayload when no transaction of
this company carries the id; otherwise add the event and recompute the
status of the transaction. -/
def applyAction (company_guid : String) (a : DeferredAction) (w : World) : Except BError World :=
  match w.transactions.find? (fun t => t.guid == a.transaction_guid) with
  | none => .error .InvalidCallbackPayload
  | some tx =>
      if tx.company_guid == company_guid then
        match add_event tx ⟨a.processor_id, a.status, a.occurred_at⟩ with
        | .error err => .error err
        | .ok tx2 =>
            .ok ⟨w.transactions.map (fun t => if t.guid == tx.guid then tx2 else t)⟩
      else .error .InvalidCallbackPayload

/-- Modelled from the spec: the full gateway event fetched by id — gateway
event id, authoritative occurred_at, the optional billy.transaction_guid
metadata tag and the gateway status string. -/
structure GatewayEvent where
  id : String
  occurred_at : Nat
  transaction_guid : Option String
  status : String
deriving DecidableEq, Repr

/-- Modelled from the spec: the inbound callback payload carries only an
external event id and a type hint. -/
structure CallbackPayload where
  id : String
  ptype : String
deriving DecidableEq, Repr

/-- Modelled from the spec: the operation kinds of the idempotent
dispatcher. -/
inductive OpKind where
  | debit
  | credit
  | refund
deriving DecidableEq, Repr

/-- Modelled from the spec: a gateway resource with an href and a gateway
status string. -/
structure Resource where
  href : String
  status : String
deriving DecidableEq, Repr

/-- Modelled from the spec: the dispatcher result record with keys
processor_uri and status. -/
structure DispatchResult where
  processor_uri : String
  status : Status
deriving DecidableEq, Repr

/-- Modelled from the spec: BalancedProcessor._resource_to_result (absent
from src) — translate a gateway resource into the dispatcher result via the
status mapper. -/
def resource_to_result (r : Resource) : DispatchResult :=
  ⟨r.href, status_mapping r.status⟩

/-- Modelled from the spec: the observable calls made against the external
gateway, recorded in order. -/
inductive GatewayCall where
  | fetchEvent (uri : String)
  | registerCallback (url : String)
  | queryByMeta (op : OpKind) (tag : String)
  | fetchCard (uri : String)
  | fetchBankAccount (uri : String)
  | fetchCustomer (uri : String)
  | fetchDebit (uri : String)
  | createCustomer (tag : String)
  | associate (fi_uri : String) (customer_uri : String)
  | mutate (op : OpKind) (target : String) (amount : Nat) (tag : String)
      (description : String) (statement : String)
deriving DecidableEq, Repr

/-- The mutating gateway operations (debit, credit or refund creation). -/
def GatewayCall.isMutating : GatewayCall → Bool
  | .mutate _ _ _ _ _ _ => true
  | _ => false

/-- Funding-instrument or customer fetches. -/
def GatewayCall.isInstrumentFetch : GatewayCall → Bool
  | .fetchCard _ => true
  | .fetchBankAccount _ => true
  | .fetchCustomer _ => true
  | _ => false

/-- Modelled from the spec: the gateway environment the dispatcher runs
against — the zero-or-one result of query-by-metadata, whether a
funding-instrument fetch succeeds (false models the gateway rejecting it),
and the resources returned by mutating calls and customer creation. -/
structure Gateway where
  queryResult : OpKind → String → Option Resource
  fiOk : String → Bool
  mutateRes : OpKind → String → Resource
  createCustomerRes : String → Resource

/-- Modelled from the spec: the processor instance configuration — the api
credential, unset until configure_api_key is called. -/
structure Processor where
  api_key : Option String

/-- Modelled from the spec: BalancedProcessor.callback (absent from src) —
assert the api key, fetch the full event by id from the gateway, and return
no action when the metadata tag is absent, otherwise the deferred action. -/
def callback (p : Processor) (fetchEvent : String → GatewayEvent) (payload : CallbackPayload) :
    Except BError (Option DeferredAction) × List GatewayCall :=
  if p.api_key.isNone then (.error .AssertionError, [])
  else
    let uri := "/v1/events/" ++ payload.id
    let ev := fetchEvent uri
    match ev.transaction_guid with
    | none => (.ok none, [.fetchEvent uri])
    | some guid =>
        (.ok (some ⟨guid, status_mapping ev.status, ev.id, ev.occurred_at⟩), [.fetchEvent uri])

/-- A processor whose api key has been configured. -/
def procOK : Processor := ⟨some "MOCK_API_KEY"⟩

/-- Modelled from the spec: the whole callback path — validate and resolve
the payload, then apply the deferred action (a missing tag is a valid
no-op). -/
def doCallback (company : String) (fetchEvent : String → GatewayEvent)
    (payload : CallbackPayload) (w : World) : Except BError World :=
  match (callback procOK fetchEvent payload).1 with
  | .error e => .error e
  | .ok none => .ok w
  | .ok (some a) => applyAction company a w

/-- Fold the callback path over a list of gateway events, each delivered as
its own callback. -/
def doCallbacks (company : String) (ges : List GatewayEvent) (w : World) : Except BError World :=
  match ges with
  | [] => .ok w
  | ge :: rest =>
      match doCallback company (fun _ => ge) ⟨"MOCK_EVENT_GUID", "debit.updated"⟩ w with
      | .error e => .error e
      | .ok w2 => doCallbacks company rest w2

/-- The unit of work of the caller: on an error the enclosing storage transaction
aborts and the world is kept unchanged. -/
def applyOrKeep (r : Except BError World) (w : World) : World :=
  match r with
  | .ok w2 => w2
  | .error _ => w

/-- The two recognized funding-instrument kinds. -/
inductive FIKind where
  | card
  | bank_account
deriving DecidableEq, Repr

/-- True when the first character list starts with the second. -/
def charsStartWith : List Char → List Char → Bool
  | _, [] => true
  | [], _ :: _ => false
  | c :: cs, p :: ps => p == c && charsStartWith cs ps

/-- True when the second character list occurs somewhere inside the
first. -/
def charsContain (text pat : List Char) : Bool :=
  match text with
  | [] => pat.isEmpty
  | c :: cs => charsStartWith (c :: cs) pat || charsContain cs pat

/-- True when the second string occurs somewhere inside the first. -/
def containsSeg (uri seg : String) : Bool :=
  charsContain uri.toList seg.toList

/-- True when the string is in URI form, beginning with a slash. -/
def uriForm (uri : String) : Bool :=
  match uri.toList with
  | [] => false
  | c :: _ => c == '/'

/-- Modelled from the spec: BalancedProcessor._to_funding_instrument (absent
from src) — dispatch on the URI shape: a URI containing a /cards/ segment is
a card, one containing /bank_accounts/ is a bank account, anything else is
an unknown kind of funding instrument (test_validate_funding_instrument_with_invalid_card
pins that such a URI fails with InvalidFundingInstrument, not
InvalidURIFormat). -/
def to_funding_instrument (uri : String) : Option FIKind :=
  if containsSeg uri "/cards/" then some .card
  else if containsSeg uri "/bank_accounts/" then some .bank_account
  else none

/-- The gateway fetch call for a funding instrument of the given kind. -/
def fiFetchCall (k : FIKind) (uri : String) : GatewayCall :=
  match k with
  | .card => .fetchCard uri
  | .bank_account => .fetchBankAccount uri

/-- Modelled from the spec: BalancedProcessor.validate_funding_instrument
(absent from src) — assert the api key; a value that is not in URI form
(the tests pin the bare token CCXXXXXXXXX) fails with InvalidURIFormat
before any network call; a URI of an unknown instrument kind fails with
InvalidFundingInstrument before any network call; otherwise the instrument
is fetched from the gateway, and a rejected fetch fails with
InvalidFundingInstrument. -/
def validate_funding_instrument (p : Processor) (gw : Gateway) (uri : String) :
    Except BError Bool × List GatewayCall :=
  if p.api_key.isNone then (.error .AssertionError, [])
  else if !(uriForm uri) then (.error .InvalidURIFormat, [])
  else
    match to_funding_instrument uri with
    | none => (.error .InvalidFundingInstrument, [])
    | some k =>
        if gw.fiOk uri then (.ok true, [fiFetchCall k uri])
        else (.error .InvalidFundingInstrument, [fiFetchCall k uri])

/-- Modelled from the spec: BalancedProcessor.validate_customer (absent from
src) — assert the api key; a value not in URI form fails with
InvalidURIFormat before any network call; otherwise the customer is fetched
from the gateway. -/
def validate_customer (p : Processor) (uri : String) :
    Except BError Bool × List GatewayCall :=
  if p.api_key.isNone then (.error .AssertionError, [])
  else if !(uriForm uri) then (.error .InvalidURIFormat, [])
  else (.ok true, [.fetchCustomer uri])

/-- Modelled from the spec: BalancedProcessor.register_callback (absent from
src) — assert the api key, then register the callback URL with the
gateway. -/
def register_callback (p : Processor) (url : String) :
    Except BError String × List GatewayCall :=
  if p.api_key.isNone then (.error .AssertionError, [])
  else (.ok url, [.registerCallback url])

/-- Modelled from the spec: BalancedProcessor.create_customer (absent from
src) — assert the api key, then create a gateway customer tagged with the
billy customer guid and return its uri. -/
def create_customer (p : Processor) (gw : Gateway) (customer_guid : String) :
    Except BError String × List GatewayCall :=
  if p.api_key.isNone then (.error .AssertionError, [])
  else (.ok (gw.createCustomerRes customer_guid).href, [.createCustomer customer_guid])

/-- Modelled from the spec: BalancedProcessor.prepare_customer (absent from
src) — assert the api key; a null funding-instrument URI is a valid no-op;
otherwise fetch the gateway customer, dispatch on the instrument kind
(an unsupported scheme fails with the generic validation error ValueError)
and associate the fetched instrument to the customer. -/
def prepare_customer (p : Processor) (customer_processor_uri : String)
    (fi_uri : Option String) : Except BError Unit × List GatewayCall :=
  if p.api_key.isNone then (.error .AssertionError, [])
  else
    match fi_uri with
    | none => (.ok (), [])
    | some uri =>
        match to_funding_instrument uri with
        | none => (.error .ValueError, [.fetchCustomer customer_processor_uri])
        | some k =>
            (.ok (), [.fetchCustomer customer_processor_uri, fiFetchCall k uri,
                      .associate uri customer_processor_uri])

/-- Modelled from the spec: the transaction record as seen by the
dispatcher — guid, owning invoice, amount, the funding-instrument reference
(absent for refunds), the processor_uri of the original debit reached through
reference_to (refunds only), and the statement descriptor. -/
structure DTransaction where
  guid : String
  invoice_guid : String
  amount : Nat
  funding_instrument_uri : Option String
  reference_to_processor_uri : Option String
  appears_on_statement_as : String
deriving DecidableEq, Repr

/-- Modelled from the spec: the human-readable description referencing the
owning invoice, passed to every mutating call. -/
def description (tx : DTransaction) : String :=
  "Generated by Billy from invoice " ++ tx.invoice_guid

/-- Modelled from the spec: the shared lookup-then-mutate
template for debit, credit and refund (BalancedProcessor._do_transaction,
absent from src).  Step 1 asserts the api key.  Step 2 queries the gateway
for a resource of the kind of the operation tagged with the transaction guid; a
hit is returned via the status mapper with no further call.  On a miss, a
refund fetches the original debit through reference_to and invokes refund
on it, while debit and credit resolve the funding-instrument URI (failing
with InvalidURIFormat for a non-URI value and InvalidFundingInstrument for
an unknown kind or a rejected fetch) and invoke the operation on the
fetched instrument.  The synchronous gateway response is translated via
the status mapper. -/
def operation (p : Processor) (gw : Gateway) (op : OpKind) (tx : DTransaction) :
    Except BError DispatchResult × List GatewayCall :=
  if p.api_key.isNone then (.error .AssertionError, [])
  else
    match gw.queryResult op tx.guid with
    | some r => (.ok (resource_to_result r), [.queryByMeta op tx.guid])
    | none =>
        let q := GatewayCall.queryByMeta op tx.guid
        match op with
        | .refund =>
            match tx.reference_to_processor_uri with
            | none => (.error .InvalidURIFormat, [q])
            | some target =>
                let res := gw.mutateRes .refund target
                (.ok (resource_to_result res),
                 [q, .fetchDebit target,
                  .mutate .refund target tx.amount tx.guid (description tx)
                    tx.appears_on_statement_as])
        | _ =>
            match tx.funding_instrument_uri with
            | none => (.error .InvalidURIFormat, [q])
            | some uri =>
                if !(uriForm uri) then (.error .InvalidURIFormat, [q])
                else
                  match to_funding_instrument uri with
                  | none => (.error .InvalidFundingInstrument, [q])
                  | some k =>
                      if gw.fiOk uri then
                        let res := gw.mutateRes op uri
                        (.ok (resource_to_result res),
                         [q, fiFetchCall k uri,
                          .mutate op uri tx.amount tx.guid (description tx)
                            tx.appears_on_statement_as])
                      else (.error .InvalidFundingInstrument, [q, fiFetchCall k uri])

/-- The single transaction of the reconciliation scenario of the tests, with
no event recorded yet. -/
def tx0 : RTransaction := ⟨"TX_GUID", "COMPANY_GUID", "IV_GUID", none, []⟩

/-- The initial world of the reconciliation scenario: one company with one
invoice owning one transaction. -/
def w0 : World := ⟨[tx0]⟩

/-- A gateway event of the scenario, tagged with the guid of the transaction. -/
def mkGE (i : String) (t : Nat) (s : String) : GatewayEvent :=
  ⟨i, t, some "TX_GUID", s⟩

/-- E1 of the order-independence scenario: occurred at T, gateway status
pending. -/
def geE1 : GatewayEvent := mkGE "EV_ID_1" 0 "pending"

/-- E2 of the order-independence scenario: occurred at T plus 10 seconds,
gateway status succeeded. -/
def geE2 : GatewayEvent := mkGE "EV_ID_2" 10 "succeeded"

/-- E3 of the order-independence scenario: occurred at T plus 20 seconds,
gateway status failed. -/
def geE3 : GatewayEvent := mkGE "EV_ID_3" 20 "failed"

/-- The status of the transaction in the outcome of a sequence of callbacks. -/
def finalTxStatus (r : Except BError World) : Option Status :=
  match r with
  | .error _ => none
  | .ok w => (w.findTx "TX_GUID").bind RTransaction.status

/-- The derived status of the invoice in the outcome of a sequence of
callbacks. -/
def finalInvoiceStatus (r : Except BError World) : Option Status :=
  match r with
  | .error _ => none
  | .ok w => w.invoiceStatus "IV_GUID"

/-- A list of events ordered by occurred_at descending, newest first. -/
def sortedDesc (l : List TransactionEvent) : Prop :=
  l.Pairwise (fun a b => b.occurred_at ≤ a.occurred_at)

/-- The six orders in which the three events of the order-independence
scenario can be delivered. -/
def permsE : List (List GatewayEvent) :=
  [[geE1, geE2, geE3], [geE1, geE3, geE2], [geE2, geE1, geE3],
   [geE2, geE3, geE1], [geE3, geE1, geE2], [geE3, geE2, geE1]]

theorem insertEventDesc_perm (ev : TransactionEvent) (l : List TransactionEvent) :
    (insertEventDesc ev l).Perm (ev :: l) := by
  induction l with
  | nil => exact List.Perm.refl _
  | cons e rest ih =>
      by_cases h : e.occurred_at < ev.occurred_at
      · simp [insertEventDesc, h]
      · simp only [insertEventDesc, if_neg h]
        exact (ih.cons e).trans (List.Perm.swap ev e rest)

theorem insertEventDesc_sorted (ev : TransactionEvent) (l : List TransactionEvent)
    (h : sortedDesc l) : sortedDesc (insertEventDesc ev l) := by
  induction l with
  | nil => simp [insertEventDesc, sortedDesc]
  | cons e rest ih =>
      rcases List.pairwise_cons.mp h with ⟨he, hrest⟩
      by_cases hlt : e.occurred_at < ev.occurred_at
      · simp only [insertEventDesc, if_pos hlt]
        refine List.pairwise_cons.mpr ⟨?_, h⟩
        intro x hx
        rcases List.mem_cons.mp hx with hx | hx
        · exact hx ▸ Nat.le_of_lt hlt
        · exact Nat.le_trans (he x hx) (Nat.le_of_lt hlt)
      · simp only [insertEventDesc, if_neg hlt]
        refine List.pairwise_cons.mpr ⟨?_, ih hrest⟩
        intro x hx
        have hx2 : x ∈ ev :: rest := (insertEventDesc_perm ev rest).mem_iff.mp hx
        rcases List.mem_cons.mp hx2 with hx2 | hx2
        · exact hx2 ▸ Nat.le_of_not_lt hlt
        · exact he x hx2

theorem latestEvent_eq_none (l : List TransactionEvent) :
    latestEvent l = none ↔ l = [] := by
  cases l with
  | nil => simp [latestEvent]
  | cons e rest =>
      simp only [latestEvent]
      cases latestEvent rest with
      | none => simp
      | some b =>
          by_cases h : b.occurred_at > e.occurred_at <;> simp [h]

theorem latestEvent_max (l : List TransactionEvent) :
    ∀ b, latestEvent l = some b →
    b ∈ l ∧ ∀ e ∈ l, e.occurred_at ≤ b.occurred_at := by
  induction l with
  | nil => intro b h; simp [latestEvent] at h
  | cons e rest ih =>
      intro b h
      cases hr : latestEvent rest with
      | none =>
          simp only [latestEvent, hr] at h
          have hrest : rest = [] := (latestEvent_eq_none rest).mp hr
          subst hrest
          cases h
          simp
      | some c =>
          simp only [latestEvent, hr] at h
          rcases ih c hr with ⟨hmem, hmax⟩
          by_cases hgt : c.occurred_at > e.occurred_at
          · rw [if_pos hgt] at h
            cases h
            refine ⟨List.mem_cons_of_mem e hmem, ?_⟩
            intro x hx
            rcases List.mem_cons.mp hx with hx | hx
            · exact hx ▸ Nat.le_of_lt hgt
            · exact hmax x hx
          · rw [if_neg hgt] at h
            cases h
            refine ⟨List.mem_cons_self _ _, ?_⟩
            intro x hx
            rcases List.mem_cons.mp hx with hx | hx
            · exact hx ▸ Nat.le_refl _
            · exact Nat.le_trans (hmax x hx) (Nat.le_of_not_lt hgt)

theorem add_event_ok (tx : RTransaction) (ev : TransactionEvent)
    (hfresh : tx.events.any (fun e => e.processor_id == ev.processor_id) = false) :
    add_event tx ev =
      .ok { tx with
            events := insertEventDesc ev tx.events,
            status := (latestEvent (insertEventDesc ev tx.events)).map TransactionEvent.status } := by
  simp [add_event, hfresh]

theorem add_event_events (tx tx2 : RTransaction) (ev : TransactionEvent)
    (h : add_event tx ev = .ok tx2) :
    tx2.events = insertEventDesc ev tx.events ∧
    tx2.status = (latestEvent tx2.events).map TransactionEvent.status ∧
    tx2.guid = tx.guid ∧ tx2.company_guid = tx.company_guid ∧
    tx2.invoice_guid = tx.invoice_guid := by
  by_cases hd : tx.events.any (fun e => e.processor_id == ev.processor_id)
  · simp [add_event, hd] at h
  · rw [add_event_ok tx ev (by simpa using hd)] at h
    cases h
    simp

theorem applyEvents_invariant (evs : List TransactionEvent) :
    ∀ tx tx2 : RTransaction, applyEvents tx evs = .ok tx2 →
      tx2.events.Perm (tx.events ++ evs) ∧
      (sortedDesc tx.events → sortedDesc tx2.events) ∧
      tx2.guid = tx.guid := by
  induction evs with
  | nil =>
      intro tx tx2 h
      simp [applyEvents] at h
      subst h
      exact ⟨by simp, fun hs => hs, rfl⟩
  | cons e rest ih =>
      intro tx tx2 h
      simp only [applyEvents] at h
      cases hadd : add_event tx e with
      | error err => rw [hadd] at h; exact absurd h (by simp)
      | ok txm =>
          rw [hadd] at h
          rcases add_event_events tx txm e hadd with ⟨hev, _, hg, _, _⟩
          rcases ih txm tx2 h with ⟨hperm, hsort, hg2⟩
          refine ⟨?_, ?_, hg2.trans hg⟩
          · have h1 : txm.events.Perm (e :: tx.events) :=
              hev ▸ insertEventDesc_perm e tx.events
            have h2 : (txm.events ++ rest).Perm (e :: (tx.events ++ rest)) := by
              simpa using h1.append_right rest
            exact hperm.trans (h2.trans List.perm_middle.symm)
          · intro hs
            exact hsort (hev ▸ insertEventDesc_sorted e tx.events hs)

/-- The number of stored events of a transaction carrying a given gateway
event id. -/
def eventsWithId (tx : RTransaction) (pid : String) : Nat :=
  tx.events.countP (fun e => e.processor_id == pid)

theorem find_map_update (l : List RTransaction) (g : String) (tx tx2 : RTransaction)
    (h : l.find? (fun t => t.guid == g) = some tx) (hg : tx2.guid = tx.guid) :
    (l.map (fun t => if t.guid == tx.guid then tx2 else t)).find? (fun t => t.guid == g) =
      some tx2 := by
  induction l with
  | nil => simp [List.find?] at h
  | cons a l ih =>
      by_cases hag : a.guid = g
      · rw [List.find?_cons_of_pos _ (by simpa using hag)] at h
        cases h
        simp only [List.map_cons, if_pos (beq_iff_eq.mpr rfl)]
        exact List.find?_cons_of_pos _ (by simpa using hg.trans hag)
      · rw [List.find?_cons_of_neg _ (by simpa using hag)] at h
        have htxg : tx.guid = g := by simpa using List.find?_some h
        have hat : ¬((a.guid == tx.guid) = true) := by
          simp only [beq_iff_eq, htxg]
          exact hag
        simp only [List.map_cons, if_neg hat]
        rw [List.find?_cons_of_neg _ (by simpa using hag)]
        exact ih h

theorem applyAction_ok_elim (company : String) (a : DeferredAction) (w w2 : World)
    (h : applyAction company a w = .ok w2) :
    ∃ tx, w.transactions.find? (fun t => t.guid == a.transaction_guid) = some tx ∧
      (tx.company_guid == company) = true ∧
      ∃ tx2, add_event tx ⟨a.processor_id, a.status, a.occurred_at⟩ = .ok tx2 ∧
        w2 = ⟨w.transactions.map (fun t => if t.guid == tx.guid then tx2 else t)⟩ := by
  cases hf : w.transactions.find? (fun t => t.guid == a.transaction_guid) with
  | none => simp [applyAction, hf] at h
  | some tx =>
      simp only [applyAction, hf] at h
      by_cases hc : (tx.company_guid == company) = true
      · rw [if_pos hc] at h
        cases hadd : add_event tx ⟨a.processor_id, a.status, a.occurred_at⟩ with
        | error e => rw [hadd] at h; exact absurd h (by simp)
        | ok tx2 =>
            rw [hadd] at h
            cases h
            exact ⟨tx, rfl, hc, tx2, hadd, rfl⟩
      · rw [if_neg hc] at h
        exact absurd h (by simp)

/-- A concrete gateway used to instantiate the dispatcher theorems: the
lookup query misses, funding-instrument fetches are rejected, and every
mutating call returns a succeeded resource. -/
def gwReject : Gateway :=
  ⟨fun _ _ => none, fun _ => false,
   fun _ _ => ⟨"MOCK_BALANCED_RESOURCE_URI", "succeeded"⟩,
   fun _ => ⟨"MOCK_CUSTOMER_URI", "succeeded"⟩⟩

/-- C6: the status mapper is a pure total function on gateway status
strings: pending maps to PENDING, succeeded and paid map to SUCCEEDED,
failed and reversed map to FAILED, and every other string maps to PENDING
without failing; the dispatcher result derives its status through it. -/
theorem C6_status_mapping_table :
    status_mapping "pending" = .PENDING ∧
    status_mapping "succeeded" = .SUCCEEDED ∧
    status_mapping "paid" = .SUCCEEDED ∧
    status_mapping "failed" = .FAILED ∧
    status_mapping "reversed" = .FAILED ∧
    (∀ r : Resource, (resource_to_result r).status = status_mapping r.status) ∧
    (∀ s : String,
      s ∉ (["pending", "succeeded", "paid", "failed", "reversed"] : List String) →
      status_mapping s = .PENDING) := by
  refine ⟨rfl, rfl, rfl, rfl, rfl, fun r => rfl, ?_⟩
  intro s hs
  simp only [List.mem_cons, List.not_mem_nil, or_false, not_or] at hs
  rcases hs with ⟨h1, h2, h3, h4, h5⟩
  simp [status_mapping, h1, h2, h3, h4, h5]

/-- Witness for C6 at the unknown gateway status string xxx of
test_status_mapping. -/
theorem C6_status_mapping_table_witness :
    status_mapping "xxx" = .PENDING ∧ status_mapping "pending" = .PENDING := by
  have h := C6_status_mapping_table
  exact ⟨h.2.2.2.2.2.2 "xxx" (by decide), h.1⟩

/-- C1: the three events E1 (occurred at T, pending), E2 (T plus 10s,
succeeded), E3 (T plus 20s, failed) applied through the callback path in
any permutation always leave the transaction FAILED and the invoice FAILED;
in general, after every successful add_event the status of the transaction is
the status of a stored event with the maximum occurred_at. -/
theorem C1_order_independence :
    (∀ l ∈ permsE,
      finalTxStatus (doCallbacks "COMPANY_GUID" l w0) = some .FAILED ∧
      finalInvoiceStatus (doCallbacks "COMPANY_GUID" l w0) = some .FAILED) ∧
    (∀ (tx tx2 : RTransaction) (ev : TransactionEvent), add_event tx ev = .ok tx2 →
      ∃ best ∈ tx2.events, tx2.status = some best.status ∧
        ∀ e ∈ tx2.events, e.occurred_at ≤ best.occurred_at) := by
  constructor
  · decide
  · intro tx tx2 ev h
    rcases add_event_events tx tx2 ev h with ⟨hev, hst, _⟩
    have hmem : ev ∈ tx2.events :=
      hev ▸ (insertEventDesc_perm ev tx.events).mem_iff.mpr (List.mem_cons_self _ _)
    cases hl : latestEvent tx2.events with
    | none =>
        have : tx2.events = [] := (latestEvent_eq_none tx2.events).mp hl
        rw [this] at hmem
        exact absurd hmem (List.not_mem_nil ev)
    | some b =>
        rcases latestEvent_max tx2.events b hl with ⟨hbmem, hbmax⟩
        refine ⟨b, hbmem, ?_, hbmax⟩
        rw [hst, hl]
        rfl

/-- Witness for C1: the delivery order E3, E1, E2 of the tests, and the max
property at the first event applied to the fresh transaction. -/
theorem C1_order_independence_witness :
    (finalTxStatus (doCallbacks "COMPANY_GUID" [geE3, geE1, geE2] w0) = some .FAILED ∧
     finalInvoiceStatus (doCallbacks "COMPANY_GUID" [geE3, geE1, geE2] w0) = some .FAILED) ∧
    (∃ best ∈ ({ tx0 with
        events := [⟨"EV_ID_1", Status.PENDING, 0⟩],
        status := some Status.PENDING } : RTransaction).events,
      ({ tx0 with
        events := [⟨"EV_ID_1", Status.PENDING, 0⟩],
        status := some Status.PENDING } : RTransaction).status = some best.status ∧
      ∀ e ∈ ({ tx0 with
        events := [⟨"EV_ID_1", Status.PENDING, 0⟩],
        status := some Status.PENDING } : RTransaction).events,
        e.occurred_at ≤ best.occurred_at) := by
  have h := C1_order_independence
  exact ⟨h.1 [geE3, geE1, geE2] (by decide),
         h.2 tx0 _ ⟨"EV_ID_1", Status.PENDING, 0⟩ rfl⟩

/-- C2: applying the deferred callback action for the same (company,
gateway event id) twice yields exactly one stored TransactionEvent, and the
second application fails with DuplicateEventError. -/
theorem C2_duplicate_event (company : String) (a b : DeferredAction) (w w2 : World)
    (hw : applyAction company a w = .ok w2)
    (hguid : b.transaction_guid = a.transaction_guid)
    (hpid : b.processor_id = a.processor_id)
    (hfresh : ∀ tx ∈ w.transactions, eventsWithId tx a.processor_id = 0) :
    applyAction company b w2 = .error .DuplicateEventError ∧
    ∃ tx2, w2.findTx a.transaction_guid = some tx2 ∧
      eventsWithId tx2 a.processor_id = 1 := by
  rcases applyAction_ok_elim company a w w2 hw with ⟨tx, hf, hc, tx2, hadd, hw2⟩
  rcases add_event_events tx tx2 ⟨a.processor_id, a.status, a.occurred_at⟩ hadd with
    ⟨hev, _, hg, hcg, _⟩
  have hfind2 : w2.transactions.find? (fun t => t.guid == a.transaction_guid) = some tx2 := by
    rw [hw2]
    exact find_map_update w.transactions a.transaction_guid tx tx2 hf hg
  have hcount : eventsWithId tx2 a.processor_id = 1 := by
    have hperm := insertEventDesc_perm ⟨a.processor_id, a.status, a.occurred_at⟩ tx.events
    have h0 : eventsWithId tx a.processor_id = 0 :=
      hfresh tx (List.mem_of_find?_eq_some hf)
    unfold eventsWithId at h0 ⊢
    rw [hev, hperm.countP_eq]
    simp [List.countP_cons, h0]
  refine ⟨?_, tx2, hfind2, hcount⟩
  have hmem : ∃ e ∈ tx2.events, (e.processor_id == b.processor_id) = true := by
    refine ⟨⟨a.processor_id, a.status, a.occurred_at⟩, ?_, by simp [hpid]⟩
    rw [hev]
    exact (insertEventDesc_perm _ tx.events).mem_iff.mpr (List.mem_cons_self _ _)
  have hany : tx2.events.any (fun e => e.processor_id == b.processor_id) = true :=
    List.any_eq_true.mpr hmem
  have hc2 : (tx2.company_guid == company) = true := by rw [hcg]; exact hc
  simp only [applyAction, hguid, hfind2, if_pos hc2, add_event, hany]
  simp

/-- Witness for C2: the fresh transaction receives event EV_ID_1 once; the
second delivery of the same event id is rejected. -/
theorem C2_duplicate_event_witness :
    applyAction "COMPANY_GUID" ⟨"TX_GUID", .SUCCEEDED, "EV_ID_1", 0⟩
        ⟨[{ tx0 with
            events := [⟨"EV_ID_1", Status.SUCCEEDED, 0⟩],
            status := some Status.SUCCEEDED }]⟩ =
      .error .DuplicateEventError ∧
    ∃ tx2, (World.findTx ⟨[{ tx0 with
            events := [⟨"EV_ID_1", Status.SUCCEEDED, 0⟩],
            status := some Status.SUCCEEDED }]⟩ "TX_GUID") = some tx2 ∧
      eventsWithId tx2 "EV_ID_1" = 1 := by
  have h := C2_duplicate_event "COMPANY_GUID"
    ⟨"TX_GUID", Status.SUCCEEDED, "EV_ID_1", 0⟩
    ⟨"TX_GUID", Status.SUCCEEDED, "EV_ID_1", 0⟩
    w0 _ rfl rfl rfl (by decide)
  exact h

/-- C4: when the fetched metadata tag of the fetched gateway event resolves to no
transaction within the scope of the calling company — including a tag whose
transaction belongs to a different company — the callback path fails with
InvalidCallbackPayload and the store is left unchanged. -/
theorem C4_company_isolation (company : String) (fetchEvent : String → GatewayEvent)
    (payload : CallbackPayload) (w : World) (g : String)
    (hg : (fetchEvent ("/v1/events/" ++ payload.id)).transaction_guid = some g)
    (hno : ∀ tx ∈ w.transactions, tx.guid = g → tx.company_guid ≠ company) :
    doCallback company fetchEvent payload w = .error .InvalidCallbackPayload ∧
    applyOrKeep (doCallback company fetchEvent payload w) w = w := by
  have hres : doCallback company fetchEvent payload w =
      applyAction company
        ⟨g, status_mapping (fetchEvent ("/v1/events/" ++ payload.id)).status,
         (fetchEvent ("/v1/events/" ++ payload.id)).id,
         (fetchEvent ("/v1/events/" ++ payload.id)).occurred_at⟩ w := by
    simp [doCallback, callback, procOK, hg]
  have herr : applyAction company
      ⟨g, status_mapping (fetchEvent ("/v1/events/" ++ payload.id)).status,
       (fetchEvent ("/v1/events/" ++ payload.id)).id,
       (fetchEvent ("/v1/events/" ++ payload.id)).occurred_at⟩ w =
      .error .InvalidCallbackPayload := by
    cases hf : w.transactions.find? (fun t => t.guid == g) with
    | none => simp [applyAction, hf]
    | some tx =>
        have htg : tx.guid = g := by simpa using List.find?_some hf
        have hmem : tx ∈ w.transactions := List.mem_of_find?_eq_some hf
        have hnc : ¬((tx.company_guid == company) = true) := by
          simpa using hno tx hmem htg
        simp [applyAction, hf, hnc]
  rw [hres, herr]
  exact ⟨rfl, rfl⟩

/-- Witness for C4: the scenario of test_callback_with_other_company — the
event is tagged with the transaction of COMPANY_GUID but resolved under
OTHER_COMPANY. -/
theorem C4_company_isolation_witness :
    doCallback "OTHER_COMPANY" (fun _ => geE1) ⟨"MOCK_EVENT_GUID", "debit.updated"⟩ w0 =
      .error .InvalidCallbackPayload ∧
    applyOrKeep
      (doCallback "OTHER_COMPANY" (fun _ => geE1) ⟨"MOCK_EVENT_GUID", "debit.updated"⟩ w0)
      w0 = w0 :=
  C4_company_isolation "OTHER_COMPANY" (fun _ => geE1) ⟨"MOCK_EVENT_GUID", "debit.updated"⟩
    w0 "TX_GUID" rfl (by decide)

/-- C5 counterexample: through the callback path, an invoice whose only
transaction has status PENDING derives status PROCESSING, not PENDING as
the claim states (test_callback_only_latest_event_affects_status expects
invoice status PROCESSING at that point). -/
theorem C5_counterexample :
    finalTxStatus (doCallbacks "COMPANY_GUID" [geE1] w0) = some .PENDING ∧
    finalInvoiceStatus (doCallbacks "COMPANY_GUID" [geE1] w0) = some .PROCESSING ∧
    Status.PROCESSING ≠ Status.PENDING := by decide

/-- C5 (amended): the derived invoice status is FAILED exactly when some
transaction failed, SUCCEEDED exactly when every transaction succeeded, and
PROCESSING otherwise — both in-progress transaction statuses derive
PROCESSING; in particular an invoice whose only transaction is PENDING
derives PROCESSING — and the invoice status read from the store is this
derivation over the statuses of the transactions of the invoice. -/
theorem C5_invoice_derivation (l : List Status) :
    (invoice_status_of l = .FAILED ↔ .FAILED ∈ l) ∧
    (invoice_status_of l = .SUCCEEDED ↔ ∀ s ∈ l, s = .SUCCEEDED) ∧
    ((.FAILED ∉ l ∧ ¬(∀ s ∈ l, s = .SUCCEEDED)) → invoice_status_of l = .PROCESSING) ∧
    invoice_status_of [Status.PENDING] = .PROCESSING ∧
    (∀ (w : World) (inv : String),
      (w.transactions.filter (fun t => t.invoice_guid == inv)).filterMap RTransaction.status ≠ [] →
      w.invoiceStatus inv =
        some (invoice_status_of
          ((w.transactions.filter (fun t => t.invoice_guid == inv)).filterMap
            RTransaction.status))) := by
  refine ⟨?_, ?_, ?_, by decide, ?_⟩
  · by_cases hf : Status.FAILED ∈ l
    · have : l.any (fun s => s == Status.FAILED) = true :=
        List.any_eq_true.mpr ⟨.FAILED, hf, by simp⟩
      simp [invoice_status_of, this, hf]
    · have : l.any (fun s => s == Status.FAILED) = false := by
        rw [List.any_eq_false]
        intro x hx
        simp only [beq_iff_eq]
        intro hxf
        exact hf (hxf ▸ hx)
      by_cases hs : l.all (fun s => s == Status.SUCCEEDED) = true <;>
        simp [invoice_status_of, this, hs, hf]
  · by_cases hf : Status.FAILED ∈ l
    · have hany : l.any (fun s => s == Status.FAILED) = true :=
        List.any_eq_true.mpr ⟨.FAILED, hf, by simp⟩
      simp only [invoice_status_of, hany, if_true]
      constructor
      · intro h; exact absurd h (by decide)
      · intro h
        exact absurd (h .FAILED hf) (by decide)
    · have hany : l.any (fun s => s == Status.FAILED) = false := by
        rw [List.any_eq_false]
        intro x hx
        simp only [beq_iff_eq]
        intro hxf
        exact hf (hxf ▸ hx)
      by_cases hs : l.all (fun s => s == Status.SUCCEEDED) = true
      · have hall := List.all_eq_true.mp hs
        simp only [invoice_status_of, hany, Bool.false_eq_true, if_false, hs, if_true]
        constructor
        · intro _ s hsl
          simpa using hall s hsl
        · intro _; trivial
      · simp only [invoice_status_of, hany, Bool.false_eq_true, if_false, hs, if_false]
        constructor
        · intro h; exact absurd h (by decide)
        · intro h
          exact absurd (List.all_eq_true.mpr (by intro x hx; simpa using h x hx)) hs
  · rintro ⟨hf, hs⟩
    have hany : l.any (fun s => s == Status.FAILED) = false := by
      rw [List.any_eq_false]
      intro x hx
      simp only [beq_iff_eq]
      intro hxf
      exact hf (hxf ▸ hx)
    have hall : l.all (fun s => s == Status.SUCCEEDED) ≠ true := by
      intro h
      exact hs (by intro x hx; simpa using List.all_eq_true.mp h x hx)
    simp [invoice_status_of, hany, hall]
  · intro w inv hne
    simp only [World.invoiceStatus]
    rw [if_neg (by simpa using hne)]

/-- Witness for C5 (amended): the single-PENDING invoice of the scenario
and its derivation read from the store after applying E1. -/
theorem C5_invoice_derivation_witness :
    (invoice_status_of [Status.PENDING] = .FAILED ↔ .FAILED ∈ [Status.PENDING]) ∧
    ((Status.FAILED ∉ [Status.PENDING] ∧
      ¬(∀ s ∈ [Status.PENDING], s = Status.SUCCEEDED)) →
      invoice_status_of [Status.PENDING] = .PROCESSING) := by
  have h := C5_invoice_derivation [Status.PENDING]
  exact ⟨h.1, h.2.2.1⟩

/-- C3: when the lookup query of the dispatcher for a resource tagged with
the id of the transaction finds one, the operation performs no mutating call and no
funding-instrument or customer fetch and returns the result derived from
the found resource via the status mapper; hence a second debit call against
a gateway in which the resource created by the first call is findable by its tag
returns the result of the first call, with exactly one mutating call between the
two. -/
theorem C3_at_most_once_dispatch :
    (∀ (p : Processor) (gw : Gateway) (op : OpKind) (tx : DTransaction) (r : Resource),
      p.api_key.isNone = false → gw.queryResult op tx.guid = some r →
      operation p gw op tx = (.ok (resource_to_result r), [.queryByMeta op tx.guid]) ∧
      ∀ c ∈ (operation p gw op tx).2,
        c.isMutating = false ∧ c.isInstrumentFetch = false) ∧
    (∀ (p : Processor) (gw gw2 : Gateway) (tx : DTransaction) (uri : String) (k : FIKind),
      p.api_key.isNone = false →
      gw.queryResult .debit tx.guid = none →
      tx.funding_instrument_uri = some uri →
      uriForm uri = true →
      to_funding_instrument uri = some k →
      gw.fiOk uri = true →
      gw2.queryResult .debit tx.guid = some (gw.mutateRes .debit uri) →
      (operation p gw2 .debit tx).1 = (operation p gw .debit tx).1 ∧
      ((operation p gw .debit tx).2 ++ (operation p gw2 .debit tx).2).countP
        GatewayCall.isMutating = 1) := by
  constructor
  · intro p gw op tx r hk hq
    have h1 : operation p gw op tx =
        (.ok (resource_to_result r), [.queryByMeta op tx.guid]) := by
      simp [operation, hk, hq]
    refine ⟨h1, ?_⟩
    rw [h1]
    intro c hc
    simp only [List.mem_singleton] at hc
    subst hc
    exact ⟨rfl, rfl⟩
  · intro p gw gw2 tx uri k hk hq hfi huri hkind hok hpersist
    have h1 : operation p gw .debit tx =
        (.ok (resource_to_result (gw.mutateRes .debit uri)),
         [.queryByMeta .debit tx.guid, fiFetchCall k uri,
          .mutate .debit uri tx.amount tx.guid (description tx)
            tx.appears_on_statement_as]) := by
      simp [operation, hk, hq, hfi, huri, hkind, hok]
    have h2 : operation p gw2 .debit tx =
        (.ok (resource_to_result (gw.mutateRes .debit uri)),
         [.queryByMeta .debit tx.guid]) := by
      simp [operation, hk, hpersist]
    rw [h1, h2]
    refine ⟨rfl, ?_⟩
    cases k <;> simp [List.countP_cons, fiFetchCall, GatewayCall.isMutating]

/-- Witness for C3: a lookup hit on a created debit record, and the
sequential redispatch of a debit against the rejecting-then-persisting
gateway. -/
theorem C3_at_most_once_dispatch_witness :
    (operation procOK
        ⟨fun _ _ => some ⟨"MOCK_BALANCED_RESOURCE_URI", "succeeded"⟩,
         fun _ => true, fun _ _ => ⟨"M", "succeeded"⟩, fun _ => ⟨"M", "succeeded"⟩⟩
        .debit
        ⟨"TXG", "IVG", 10, some "/v1/cards/tester", none, "hello baby"⟩ =
      (.ok ⟨"MOCK_BALANCED_RESOURCE_URI", Status.SUCCEEDED⟩,
       [.queryByMeta .debit "TXG"])) ∧
    ((operation procOK
        ⟨fun _ _ => some ⟨"MOCK_BALANCED_RESOURCE_URI", "succeeded"⟩,
         fun _ => true, fun _ _ => ⟨"M", "succeeded"⟩, fun _ => ⟨"M", "succeeded"⟩⟩
        .debit
        ⟨"TXG", "IVG", 10, some "/v1/cards/tester", none, "hello baby"⟩).1 =
      (operation procOK
        ⟨fun _ _ => none,
         fun _ => true,
         fun _ _ => ⟨"MOCK_BALANCED_RESOURCE_URI", "succeeded"⟩,
         fun _ => ⟨"M", "succeeded"⟩⟩
        .debit
        ⟨"TXG", "IVG", 10, some "/v1/cards/tester", none, "hello baby"⟩).1) := by
  have h2 := C3_at_most_once_dispatch.2 procOK
    ⟨fun _ _ => none, fun _ => true,
     fun _ _ => ⟨"MOCK_BALANCED_RESOURCE_URI", "succeeded"⟩,
     fun _ => ⟨"M", "succeeded"⟩⟩
    ⟨fun _ _ => some ⟨"MOCK_BALANCED_RESOURCE_URI", "succeeded"⟩,
     fun _ => true, fun _ _ => ⟨"M", "succeeded"⟩, fun _ => ⟨"M", "succeeded"⟩⟩
    ⟨"TXG", "IVG", 10, some "/v1/cards/tester", none, "hello baby"⟩
    "/v1/cards/tester" .card rfl rfl rfl (by decide) (by decide) rfl rfl
  have h1 := C3_at_most_once_dispatch.1 procOK
    ⟨fun _ _ => some ⟨"MOCK_BALANCED_RESOURCE_URI", "succeeded"⟩,
     fun _ => true, fun _ _ => ⟨"M", "succeeded"⟩, fun _ => ⟨"M", "succeeded"⟩⟩
    .debit
    ⟨"TXG", "IVG", 10, some "/v1/cards/tester", none, "hello baby"⟩
    ⟨"MOCK_BALANCED_RESOURCE_URI", "succeeded"⟩ rfl rfl
  exact ⟨h1.1, h2.1⟩

/-- C7 counterexample: the URI /v1/foobar/invalid_card contains neither a
/cards/ nor a /bank_accounts/ segment, yet validating it fails with
InvalidFundingInstrument, not InvalidURIFormat as the claim states
(pinned by test_validate_funding_instrument_with_invalid_card). -/
theorem C7_counterexample :
    validate_funding_instrument procOK gwReject "/v1/foobar/invalid_card" =
      (.error .InvalidFundingInstrument, []) ∧
    BError.InvalidFundingInstrument ≠ BError.InvalidURIFormat := by
  exact ⟨rfl, by decide⟩

/-- C7 (amended): a funding-instrument value that is not URI-formed fails
with InvalidURIFormat before any network call; a URI-formed value without a
/cards/ or /bank_accounts/ segment fails with InvalidFundingInstrument,
still before any network call; a URI of a recognized shape whose fetch the
gateway rejects fails with InvalidFundingInstrument after exactly one
network call; dispatching a debit with such URIs fails the same way after
only the idempotency query, with no funding-instrument fetch and no
mutating call. -/
theorem C7_uri_validation :
    (∀ (p : Processor) (gw : Gateway) (uri : String),
      p.api_key.isNone = false → uriForm uri = false →
      validate_funding_instrument p gw uri = (.error .InvalidURIFormat, [])) ∧
    (∀ (p : Processor) (gw : Gateway) (uri : String),
      p.api_key.isNone = false → uriForm uri = true → to_funding_instrument uri = none →
      validate_funding_instrument p gw uri = (.error .InvalidFundingInstrument, [])) ∧
    (∀ (p : Processor) (gw : Gateway) (uri : String) (k : FIKind),
      p.api_key.isNone = false → uriForm uri = true →
      to_funding_instrument uri = some k → gw.fiOk uri = false →
      validate_funding_instrument p gw uri =
        (.error .InvalidFundingInstrument, [fiFetchCall k uri]) ∧
      (fiFetchCall k uri).isMutating = false) ∧
    (∀ (p : Processor) (gw : Gateway) (tx : DTransaction) (uri : String),
      p.api_key.isNone = false → gw.queryResult .debit tx.guid = none →
      tx.funding_instrument_uri = some uri → uriForm uri = false →
      operation p gw .debit tx = (.error .InvalidURIFormat, [.queryByMeta .debit tx.guid])) := by
  refine ⟨?_, ?_, ?_, ?_⟩
  · intro p gw uri hk huri
    simp [validate_funding_instrument, hk, huri]
  · intro p gw uri hk huri hkind
    simp [validate_funding_instrument, hk, huri, hkind]
  · intro p gw uri k hk huri hkind hrej
    refine ⟨by simp [validate_funding_instrument, hk, huri, hkind, hrej], ?_⟩
    cases k <;> rfl
  · intro p gw tx uri hk hq hfi huri
    simp [operation, hk, hq, hfi, huri]

/-- Witness for C7 (amended): the inputs of the tests — the bare token
CCXXXXXXXXX, the unknown-kind URI /v1/foobar/invalid_card and the rejected
card /v1/cards/invalid_card. -/
theorem C7_uri_validation_witness :
    validate_funding_instrument procOK gwReject "CCXXXXXXXXX" =
      (.error .InvalidURIFormat, []) ∧
    validate_funding_instrument procOK gwReject "/v1/foobar/invalid_card" =
      (.error .InvalidFundingInstrument, []) ∧
    validate_funding_instrument procOK gwReject "/v1/cards/invalid_card" =
      (.error .InvalidFundingInstrument, [.fetchCard "/v1/cards/invalid_card"]) := by
  have h := C7_uri_validation
  exact ⟨h.1 procOK gwReject "CCXXXXXXXXX" rfl (by decide),
         h.2.1 procOK gwReject "/v1/foobar/invalid_card" rfl (by decide) (by decide),
         (h.2.2.1 procOK gwReject "/v1/cards/invalid_card" .card rfl (by decide)
           (by decide) rfl).1⟩

/-- C8: a refund dispatch never fetches a funding instrument; on a lookup
miss the mutating call is invoked on the gateway resource of the original DEBIT
reached through reference_to, with the amount of the refund, the transaction-id
tag, the invoice-referencing description and the statement descriptor. -/
theorem C8_refund_targeting (p : Processor) (gw : Gateway) (tx : DTransaction)
    (target : String)
    (hk : p.api_key.isNone = false)
    (hq : gw.queryResult .refund tx.guid = none)
    (href : tx.reference_to_processor_uri = some target) :
    operation p gw .refund tx =
      (.ok (resource_to_result (gw.mutateRes .refund target)),
       [.queryByMeta .refund tx.guid, .fetchDebit target,
        .mutate .refund target tx.amount tx.guid (description tx)
          tx.appears_on_statement_as]) ∧
    ∀ c ∈ (operation p gw .refund tx).2, c.isInstrumentFetch = false := by
  have h1 : operation p gw .refund tx =
      (.ok (resource_to_result (gw.mutateRes .refund target)),
       [.queryByMeta .refund tx.guid, .fetchDebit target,
        .mutate .refund target tx.amount tx.guid (description tx)
          tx.appears_on_statement_as]) := by
    simp [operation, hk, hq, href]
  refine ⟨h1, ?_⟩
  rw [h1]
  intro c hc
  simp only [List.mem_cons, List.not_mem_nil, or_false] at hc
  rcases hc with hc | hc | hc <;> subst hc <;> rfl

/-- Witness for C8: the refund scenario of test_refund — amount 56,
statement descriptor hello baby, targeting the stored debit resource. -/
theorem C8_refund_targeting_witness :
    operation procOK
      ⟨fun _ _ => none, fun _ => false,
       fun _ _ => ⟨"MOCK_REFUND_URI", "succeeded"⟩, fun _ => ⟨"M", "succeeded"⟩⟩
      .refund
      ⟨"TXG", "IVG", 56, none, some "MOCK_BALANCED_DEBIT_URI", "hello baby"⟩ =
    (.ok ⟨"MOCK_REFUND_URI", Status.SUCCEEDED⟩,
     [.queryByMeta .refund "TXG", .fetchDebit "MOCK_BALANCED_DEBIT_URI",
      .mutate .refund "MOCK_BALANCED_DEBIT_URI" 56 "TXG"
        "Generated by Billy from invoice IVG" "hello baby"]) :=
  (C8_refund_targeting procOK
    ⟨fun _ _ => none, fun _ => false,
     fun _ _ => ⟨"MOCK_REFUND_URI", "succeeded"⟩, fun _ => ⟨"M", "succeeded"⟩⟩
    ⟨"TXG", "IVG", 56, none, some "MOCK_BALANCED_DEBIT_URI", "hello baby"⟩
    "MOCK_BALANCED_DEBIT_URI" rfl rfl rfl).1

/-- C9: every operation of a dispatcher whose api credential has not been
configured fails with the api-key assertion and performs no gateway
call. -/
theorem C9_api_key_ensured (p : Processor) (hk : p.api_key = none) :
    (∀ (fetchEvent : String → GatewayEvent) (payload : CallbackPayload),
      callback p fetchEvent payload = (.error .AssertionError, [])) ∧
    (∀ url : String, register_callback p url = (.error .AssertionError, [])) ∧
    (∀ uri : String, validate_customer p uri = (.error .AssertionError, [])) ∧
    (∀ (gw : Gateway) (guid : String),
      create_customer p gw guid = (.error .AssertionError, [])) ∧
    (∀ (cu : String) (fi : Option String),
      prepare_customer p cu fi = (.error .AssertionError, [])) ∧
    (∀ (gw : Gateway) (tx : DTransaction),
      operation p gw .debit tx = (.error .AssertionError, [])) ∧
    (∀ (gw : Gateway) (tx : DTransaction),
      operation p gw .credit tx = (.error .AssertionError, [])) ∧
    (∀ (gw : Gateway) (tx : DTransaction),
      operation p gw .refund tx = (.error .AssertionError, [])) := by
  refine ⟨?_, ?_, ?_, ?_, ?_, ?_, ?_, ?_⟩ <;>
    intros <;>
    simp [callback, register_callback, validate_customer, create_customer,
      prepare_customer, operation, hk]

/-- Witness for C9: the unconfigured processor of test_api_key_is_ensured,
each operation invoked at a concrete input. -/
theorem C9_api_key_ensured_witness :
    callback ⟨none⟩ (fun _ => geE1) ⟨"MOCK_EVENT_GUID", "debit.updated"⟩ =
      (.error .AssertionError, []) ∧
    register_callback ⟨none⟩ "http://foobar.com/callback" =
      (.error .AssertionError, []) ∧
    validate_customer ⟨none⟩ "/v1/customers/xxx" = (.error .AssertionError, []) ∧
    create_customer ⟨none⟩ gwReject "CUG" = (.error .AssertionError, []) ∧
    prepare_customer ⟨none⟩ "MOCK_BALANCED_CUSTOMER_URI" (some "/v1/cards/my_card") =
      (.error .AssertionError, []) ∧
    operation ⟨none⟩ gwReject .debit ⟨"TXG", "IVG", 10, some "/v1/cards/tester", none, ""⟩ =
      (.error .AssertionError, []) ∧
    operation ⟨none⟩ gwReject .credit ⟨"TXG", "IVG", 10, some "/v1/cards/tester", none, ""⟩ =
      (.error .AssertionError, []) ∧
    operation ⟨none⟩ gwReject .refund ⟨"TXG", "IVG", 56, none, some "D", ""⟩ =
      (.error .AssertionError, []) := by
  have h := C9_api_key_ensured ⟨none⟩ rfl
  exact ⟨h.1 _ _, h.2.1 _, h.2.2.1 _, h.2.2.2.1 _ _, h.2.2.2.2.1 _ _,
         h.2.2.2.2.2.1 _ _, h.2.2.2.2.2.2.1 _ _, h.2.2.2.2.2.2.2 _ _⟩

/-- C10: iterating the stored events of a transaction yields each recorded event
exactly once, sorted by occurred_at descending; through the callback path
each stored event carries the gateway event id as processor_id, the mapped
canonical status and the gateway occurred_at (the concrete E1, E3, E2
delivery of the tests). -/
theorem C10_events_iteration :
    (∀ (tx tx2 : RTransaction) (evs : List TransactionEvent),
      tx.events = [] → applyEvents tx evs = .ok tx2 →
      tx2.events.Perm evs ∧ sortedDesc tx2.events ∧
      ((evs.map TransactionEvent.processor_id).Nodup →
        ∀ e ∈ evs, tx2.events.count e = 1)) ∧
    ((doCallbacks "COMPANY_GUID" [geE1, geE3, geE2] w0).toOption.map
        (fun w => (w.findTx "TX_GUID").map RTransaction.events) =
      some (some [⟨"EV_ID_3", .FAILED, 20⟩, ⟨"EV_ID_2", .SUCCEEDED, 10⟩,
                  ⟨"EV_ID_1", .PENDING, 0⟩])) := by
  constructor
  · intro tx tx2 evs hnil h
    rcases applyEvents_invariant evs tx tx2 h with ⟨hperm, hsort, _⟩
    rw [hnil] at hperm hsort
    refine ⟨by simpa using hperm, hsort (List.Pairwise.nil), ?_⟩
    intro hnd e he
    have hevnd : evs.Nodup := List.Nodup.of_map _ hnd
    have h1 : evs.count e = 1 := List.count_eq_one_of_mem hevnd he
    rw [← h1]
    exact (by simpa using hperm : tx2.events.Perm evs).count_eq e
  · decide

/-- Witness for C10: two events with distinct ids applied to the fresh
transaction are each stored exactly once, newest first. -/
theorem C10_events_iteration_witness :
    (({ tx0 with
        events := [⟨"B", Status.FAILED, 7⟩, ⟨"A", Status.PENDING, 5⟩],
        status := some Status.FAILED } : RTransaction).events).Perm
      [⟨"A", Status.PENDING, 5⟩, ⟨"B", Status.FAILED, 7⟩] ∧
    sortedDesc ({ tx0 with
        events := [⟨"B", Status.FAILED, 7⟩, ⟨"A", Status.PENDING, 5⟩],
        status := some Status.FAILED } : RTransaction).events := by
  have h := (C10_events_iteration.1 tx0
    { tx0 with
      events := [⟨"B", Status.FAILED, 7⟩, ⟨"A", Status.PENDING, 5⟩],
      status := some Status.FAILED }
    [⟨"A", Status.PENDING, 5⟩, ⟨"B", Status.FAILED, 7⟩] rfl rfl)
  exact ⟨h.1, h.2.1⟩

end Billy
